import Mathlib

/-!
Shallow embedding of the drug-report backend (src/app.py) and verification of
the specification claims about it.

External effects (the openFDA HTTP fetch and the generative-model call) are
modelled as explicit function parameters: a fetch oracle
`String → Option RawLabel` (the parsed JSON body of the one openFDA result, or
`none` for every failure mode the code maps to `None`), and a model oracle
`String → Nat → LLMOutcome` giving, for a prompt and an attempt index, the
combined outcome of `model.generate_content` plus `json.loads` (success with
the parsed alert list, or an exception carrying a message string).
-/

namespace DrugApp

/-- Substring test on character lists: `hasPre pat l` is true when `pat` is a
prefix of `l` (Python `str.startswith` on the decoded characters). -/
def hasPre : List Char → List Char → Bool
  | [], _ => true
  | _ :: _, [] => false
  | a :: as, b :: bs => a == b && hasPre as bs

/-- Substring test on character lists: `hasSub pat l` is true when `pat`
occurs contiguously inside `l` (Python `pat in l`). -/
def hasSub (pat : List Char) : List Char → Bool
  | [] => hasPre pat []
  | b :: bs => hasPre pat (b :: bs) || hasSub pat bs

/-- Python `pat in s` for strings. -/
def strContains (s pat : String) : Bool := hasSub pat.data s.data

/-- One alert object, as produced by the model or by an error path:
a `type` tag and a one-sentence `finding`. -/
structure Alert where
  type : String
  finding : String
deriving DecidableEq, Repr

/-- The normalized drug record built by `fetch_drug_data` on success
(src/app.py lines 107-114). -/
structure DrugRecord where
  brandName : String
  genericName : String
  contraindications : String
  warnings_and_precautions : String
  drugInteractions : String
  adverseReactions : String
deriving DecidableEq, Repr

/-- The full-data field of a report: the fetched record, or the literal empty
JSON object written on the fetch-failure paths. `none` models the empty
object; no path of the code ever stores JSON null here. -/
abbrev FullData := Option DrugRecord

/-- One per-drug report object as assembled by either endpoint. -/
structure DrugReport where
  genericName : String
  brandName : String
  drugClass : String
  alerts : List Alert
  fullData : FullData
deriving DecidableEq, Repr

/-- A patient profile as read from the request body: each field is `none`
when the corresponding key is absent from the JSON object. -/
structure PatientProfile where
  vitals : Option String
  notes : Option String
  allergies : Option (List String)
  meds : Option (List String)
deriving DecidableEq, Repr

/-- The `openfda` sub-object of one openFDA result: each name field is `none`
when the key is absent. -/
structure RawOpenFda where
  brand_name : Option (List String)
  generic_name : Option (List String)
deriving DecidableEq, Repr

/-- The parsed JSON body of the single openFDA result the code reads
(`data["results"][0]`). A label section is `none` when the key is absent or
its value is not a list, `some l` when it is the list `l`. -/
structure RawLabel where
  openfda : Option RawOpenFda
  contraindications : Option (List String)
  warnings_and_precautions : Option (List String)
  drug_interactions : Option (List String)
  adverse_reactions : Option (List String)
deriving DecidableEq, Repr

/-- One entry of the fixed drug catalog. -/
structure CatalogEntry where
  className : String
  name : String
deriving DecidableEq, Repr

/-- The fixed 5-entry catalog `COMMON_BP_DRUGS` (src/app.py lines 75-81). -/
def COMMON_BP_DRUGS : List CatalogEntry :=
  [⟨"ACE Inhibitor", "Lisinopril"⟩,
   ⟨"ARB", "Losartan"⟩,
   ⟨"Calcium Channel Blocker", "Amlodipine"⟩,
   ⟨"Beta-Blocker", "Metoprolol"⟩,
   ⟨"Diuretic", "Hydrochlorothiazide"⟩]

/-- The inner helper `get_section_text` of `fetch_drug_data` (lines 101-105):
a truthy list renders as the lowercased space-join of its elements, anything
else as the placeholder text. -/
def get_section_text : Option (List String) → String
  | some (s :: ss) => (String.intercalate " " (s :: ss)).toLower
  | some [] => "No information listed."
  | none => "No information listed."

/-- The record construction of `fetch_drug_data` (lines 107-114) applied to
the parsed result object. `drug.get("openfda", \x7b\x7d).get(k, d)` becomes
`(raw.openfda.bind (·.k)).getD d`. -/
def buildDrugRecord (drug_name : String) (raw : RawLabel) : DrugRecord :=
  { brandName := String.intercalate ", " ((raw.openfda.bind (·.brand_name)).getD ["N/A"])
    genericName := String.intercalate ", " ((raw.openfda.bind (·.generic_name)).getD [drug_name])
    contraindications := get_section_text raw.contraindications
    warnings_and_precautions := get_section_text raw.warnings_and_precautions
    drugInteractions := get_section_text raw.drug_interactions
    adverseReactions := get_section_text raw.adverse_reactions }

/-- The fetcher `fetch_drug_data` (lines 85-117): every failure mode — request
exception, non-2xx status, an error body, an empty result set — returns
`None`, modelled by a `none` fetch-oracle answer; a usable result is
normalized by `buildDrugRecord`. -/
def fetch_drug_data (fda : String → Option RawLabel) (drug_name : String) : Option DrugRecord :=
  (fda drug_name).map (buildDrugRecord drug_name)

/-- Outcome of one analyzer attempt: `model.generate_content` followed by
`json.loads` either yields a parsed alert list or raises an exception whose
`str(e)` is the carried message. -/
inductive LLMOutcome where
  | ok (alerts : List Alert)
  | err (msg : String)
deriving DecidableEq, Repr

/-- The retry condition of line 163: `"429" in str(e) or "503" in str(e)`. -/
def isRetryable (msg : String) : Bool := strContains msg "429" || strContains msg "503"

/-- An ERROR alert as written by the failure paths of `analyze_with_llm`. -/
def errorAlert (finding : String) : Alert := ⟨"🔴 ERROR", finding⟩

/-- The terminal-error finding of line 168. -/
def terminalFinding (msg : String) : String := "Could not analyze drug: " ++ msg

/-- The retries-exhausted finding of line 170. -/
def exhaustedFinding : String := "Could not analyze drug after multiple retries."

/-- Result of a run of the analyzer retry loop, instrumented with the number
of attempts made and the list of back-off delays slept, in order. -/
structure AnalyzeTrace where
  result : List Alert
  attempts : Nat
  sleeps : List Nat
deriving DecidableEq, Repr

/-- The retry loop of `analyze_with_llm` (lines 144-170). `remaining` is the
number of loop iterations left, `attempt` the 0-based index of the next
attempt, `delay` the current back-off delay, `sleepsRev` the delays slept so
far in reverse. A retryable failure sleeps `delay`, doubles it and loops; any
other failure returns one ERROR alert at once; an exhausted loop returns the
generic ERROR alert. -/
def analyzeAux (gen : Nat → LLMOutcome) :
    Nat → Nat → Nat → List Nat → AnalyzeTrace
  | 0, attempt, _, sleepsRev => ⟨[errorAlert exhaustedFinding], attempt, sleepsRev.reverse⟩
  | remaining + 1, attempt, delay, sleepsRev =>
    match gen attempt with
    | .ok alerts => ⟨alerts, attempt + 1, sleepsRev.reverse⟩
    | .err msg =>
      if isRetryable msg then
        analyzeAux gen remaining (attempt + 1) (delay * 2) (delay :: sleepsRev)
      else
        ⟨[errorAlert (terminalFinding msg)], attempt + 1, sleepsRev.reverse⟩

/-- The user prompt composed by `analyze_with_llm` (lines 123-142), as the
exact f-string concatenation. -/
def user_prompt (patient_profile_text : String) (drug_data : DrugRecord) : String :=
  "\n    PATIENT PROFILE:\n    " ++ patient_profile_text ++
  "\n\n    DRUG DATA FOR: " ++ drug_data.genericName ++
  "\n    ---\n    CONTRAINDICATIONS:\n    " ++ drug_data.contraindications ++
  "\n    ---\n    WARNINGS AND PRECAUTIONS:\n    " ++ drug_data.warnings_and_precautions ++
  "\n    ---\n    DRUG INTERACTIONS:\n    " ++ drug_data.drugInteractions ++
  "\n    ---\n    ADVERSE REACTIONS:\n    " ++ drug_data.adverseReactions ++
  "\n    ---\n    ANALYZE and return all conflicts. If no conflicts are found, return a single \"INFO\" alert.\n    "

/-- Instrumented run of `analyze_with_llm` (lines 119-170): `max_retries = 3`,
initial `delay = 1`, attempts indexed from 0; the model oracle is consulted at
the prompt composed for this profile text and drug record. -/
def analyzeTraceOf (gen : String → Nat → LLMOutcome)
    (patient_profile_text : String) (drug_data : DrugRecord) : AnalyzeTrace :=
  analyzeAux (gen (user_prompt patient_profile_text drug_data)) 3 0 1 []

/-- The alert list `analyze_with_llm` returns to its caller. -/
def analyze_with_llm (gen : String → Nat → LLMOutcome)
    (patient_profile_text : String) (drug_data : DrugRecord) : List Alert :=
  (analyzeTraceOf gen patient_profile_text drug_data).result

/-- Python `value or default` for strings: the empty string is falsy. -/
def orNA (s : String) : String := if s = "" then "N/A" else s

/-- The rendering `profile.get(key, \x27N/A\x27)` of a text field. -/
def textOrNA (o : Option String) : String := o.getD "N/A"

/-- The rendering `\x27, \x27.join(profile.get(key, [])) or \x27N/A\x27` of a
list field. -/
def joinOrNA (o : Option (List String)) : String :=
  orNA (String.intercalate ", " (o.getD []))

/-- The profile formatter `get_profile_text` (lines 172-179), as the exact
f-string concatenation. -/
def get_profile_text (profile : PatientProfile) : String :=
  "\n    - Vitals: " ++ textOrNA profile.vitals ++
  "\n    - Notes/History: " ++ textOrNA profile.notes ++
  "\n    - Allergies: " ++ joinOrNA profile.allergies ++
  "\n    - Other Medications: " ++ joinOrNA profile.meds ++
  "\n    "

/-- The fetch-failure finding of the batch endpoint (line 203). -/
def batchFetchFailFinding : String := "Could not fetch drug data from openFDA."

/-- The fetch-failure finding of the single-drug endpoint (line 245). -/
def singleFetchFailFinding (drug_name : String) : String :=
  "Could not fetch drug data for \x27" ++ drug_name ++ "\x27. Check spelling."

/-- The loop body of `/generate-report` for one catalog entry
(lines 194-218): on fetch failure a degraded report with one ERROR alert and
empty full data; on success a full report built from the fetched record and
the analyzer output. -/
def batchItem (fda : String → Option RawLabel) (gen : String → Nat → LLMOutcome)
    (profile_text : String) (drug_def : CatalogEntry) : DrugReport :=
  match fetch_drug_data fda drug_def.name with
  | none =>
    { genericName := drug_def.name
      brandName := "N/A"
      drugClass := drug_def.className
      alerts := [errorAlert batchFetchFailFinding]
      fullData := none }
  | some drug_data =>
    { genericName := drug_data.genericName
      brandName := drug_data.brandName
      drugClass := drug_def.className
      alerts := analyze_with_llm gen profile_text drug_data
      fullData := some drug_data }

/-- The report loop of the `/generate-report` handler (lines 191-220): one
report per catalog entry, appended in catalog order. -/
def generate_report (fda : String → Option RawLabel) (gen : String → Nat → LLMOutcome)
    (profile : PatientProfile) : List DrugReport :=
  COMMON_BP_DRUGS.map (batchItem fda gen (get_profile_text profile))

/-- The post-validation body of the `/check-drug` handler (lines 234-260):
fetch the named drug; on failure return the degraded report of lines 241-247;
on success analyze and assemble the report of lines 253-259. -/
def check_single_drug (fda : String → Option RawLabel) (gen : String → Nat → LLMOutcome)
    (profile : PatientProfile) (drug_name : String) : DrugReport :=
  match fetch_drug_data fda drug_name with
  | none =>
    { genericName := drug_name
      brandName := "N/A"
      drugClass := "Custom Search"
      alerts := [errorAlert (singleFetchFailFinding drug_name)]
      fullData := none }
  | some drug_data =>
    { genericName := drug_data.genericName
      brandName := drug_data.brandName
      drugClass := "Custom Search"
      alerts := analyze_with_llm gen (get_profile_text profile) drug_data
      fullData := some drug_data }

/-- Deterministic stub profile with every key absent. -/
def profile0 : PatientProfile := ⟨none, none, none, none⟩

/-- Deterministic stub openFDA result: a generic name is listed, the brand
name key and every label section are absent. -/
def rawStubLabel : RawLabel := ⟨some ⟨none, some ["IBUPROFEN"]⟩, none, none, none, none⟩

/-- Fetch oracle for which every lookup fails. -/
def fdaNone : String → Option RawLabel := fun _ => none

/-- Fetch oracle for which every lookup returns the stub label. -/
def fdaStub : String → Option RawLabel := fun _ => some rawStubLabel

/-- Model oracle whose every call parses to the empty JSON array. -/
def genOkEmpty : String → Nat → LLMOutcome := fun _ _ => .ok []

/-- Model oracle whose every call fails with a rate-limit message. -/
def genErr429 : String → Nat → LLMOutcome := fun _ _ => .err "Error 429 Resource has been exhausted"

/-- Model oracle whose every call returns one INFO alert. -/
def genOkInfo : String → Nat → LLMOutcome := fun _ _ => .ok [⟨"🟢 INFO", "No conflicts found."⟩]

theorem hasPre_append_self (x t : List Char) : hasPre x (x ++ t) = true := by
  induction x with
  | nil => rfl
  | cons a as ih => simp [hasPre, ih]

theorem hasSub_of_hasPre (pat l : List Char) (h : hasPre pat l = true) :
    hasSub pat l = true := by
  cases l with
  | nil => simpa [hasSub] using h
  | cons b bs => simp [hasSub, h]

theorem hasSub_append_right (pat s l : List Char) (h : hasSub pat l = true) :
    hasSub pat (s ++ l) = true := by
  induction s with
  | nil => simpa using h
  | cons c cs ih => simp [List.cons_append, hasSub, ih]

theorem strContains_of_append (a b pat : String) (h : strContains b pat = true) :
    strContains (a ++ b) pat = true := by
  simp only [strContains, String.data_append]
  exact hasSub_append_right _ _ _ (by simpa [strContains] using h)

theorem strContains_self_append (x b : String) : strContains (x ++ b) x = true := by
  simp only [strContains, String.data_append]
  exact hasSub_of_hasPre _ _ (hasPre_append_self _ _)

theorem analyzeAux_attempts_le (g : Nat → LLMOutcome) :
    ∀ (r a d : Nat) (sl : List Nat), (analyzeAux g r a d sl).attempts ≤ a + r := by
  intro r
  induction r with
  | zero => intro a d sl; simp [analyzeAux]
  | succ n ih =>
    intro a d sl
    cases hg : g a with
    | ok alerts => simp [analyzeAux, hg]
    | err msg =>
      by_cases hr : isRetryable msg = true
      · simp only [analyzeAux, hg, hr, if_true]
        have := ih (a + 1) (d * 2) (d :: sl)
        omega
      · simp [analyzeAux, hg, hr]

theorem analyzeAux_spec (g : Nat → LLMOutcome) :
    ∀ (r a d : Nat) (sl : List Nat),
      (∃ i, a ≤ i ∧ i < a + r ∧ g i = .ok (analyzeAux g r a d sl).result) ∨
      ((analyzeAux g r a d sl).result.length = 1 ∧
        ∀ al ∈ (analyzeAux g r a d sl).result, al.type = "🔴 ERROR") := by
  intro r
  induction r with
  | zero => intro a d sl; right; simp [analyzeAux, errorAlert]
  | succ n ih =>
    intro a d sl
    cases hg : g a with
    | ok alerts =>
      left
      exact ⟨a, le_refl a, by omega, by simp [analyzeAux, hg]⟩
    | err msg =>
      by_cases hr : isRetryable msg = true
      · simp only [analyzeAux, hg, hr, if_true]
        rcases ih (a + 1) (d * 2) (d :: sl) with ⟨i, h1, h2, h3⟩ | h
        · left; exact ⟨i, by omega, by omega, h3⟩
        · right; exact h
      · right; simp [analyzeAux, hg, hr, errorAlert]

/-- C2: the analyzer makes at most 3 attempts; a retryable (429/503) failure
sleeps the current delay, which starts at 1 and doubles for each retried
attempt; a non-retryable failure at any attempt returns at once one ERROR
alert carrying that message; three retryable failures exhaust the loop and
return the single generic exhaustion alert. Every reachable outcome pattern
of the loop is listed. -/
theorem C2_retry_policy (g : Nat → LLMOutcome) :
    ((analyzeAux g 3 0 1 []).attempts ≤ 3)
    ∧ (∀ a, g 0 = .ok a → analyzeAux g 3 0 1 [] = ⟨a, 1, []⟩)
    ∧ (∀ m, g 0 = .err m → isRetryable m = false →
        analyzeAux g 3 0 1 [] = ⟨[errorAlert (terminalFinding m)], 1, []⟩)
    ∧ (∀ m a, g 0 = .err m → isRetryable m = true → g 1 = .ok a →
        analyzeAux g 3 0 1 [] = ⟨a, 2, [1]⟩)
    ∧ (∀ m m1, g 0 = .err m → isRetryable m = true → g 1 = .err m1 →
        isRetryable m1 = false →
        analyzeAux g 3 0 1 [] = ⟨[errorAlert (terminalFinding m1)], 2, [1]⟩)
    ∧ (∀ m m1 a, g 0 = .err m → isRetryable m = true → g 1 = .err m1 →
        isRetryable m1 = true → g 2 = .ok a →
        analyzeAux g 3 0 1 [] = ⟨a, 3, [1, 2]⟩)
    ∧ (∀ m m1 m2, g 0 = .err m → isRetryable m = true → g 1 = .err m1 →
        isRetryable m1 = true → g 2 = .err m2 → isRetryable m2 = false →
        analyzeAux g 3 0 1 [] = ⟨[errorAlert (terminalFinding m2)], 3, [1, 2]⟩)
    ∧ (∀ m m1 m2, g 0 = .err m → isRetryable m = true → g 1 = .err m1 →
        isRetryable m1 = true → g 2 = .err m2 → isRetryable m2 = true →
        analyzeAux g 3 0 1 [] = ⟨[errorAlert exhaustedFinding], 3, [1, 2, 4]⟩) := by
  refine ⟨by simpa using analyzeAux_attempts_le g 3 0 1 [], ?_, ?_, ?_, ?_, ?_, ?_, ?_⟩
  · intro a h0; simp [analyzeAux, h0]
  · intro m h0 hr; simp [analyzeAux, h0, hr]
  · intro m a h0 hr h1; simp [analyzeAux, h0, hr, h1]
  · intro m m1 h0 hr h1 hr1; simp [analyzeAux, h0, hr, h1, hr1]
  · intro m m1 a h0 hr h1 hr1 h2; simp [analyzeAux, h0, hr, h1, hr1, h2]
  · intro m m1 m2 h0 hr h1 hr1 h2 hr2; simp [analyzeAux, h0, hr, h1, hr1, h2, hr2]
  · intro m m1 m2 h0 hr h1 hr1 h2 hr2; simp [analyzeAux, h0, hr, h1, hr1, h2, hr2]

/-- Witness for C2: with every attempt failing with a 429 message, the loop
makes 3 attempts, sleeps 1, 2 and 4, and returns the generic exhaustion
alert. -/
theorem C2_retry_policy_witness :
    analyzeAux (genErr429 "p") 3 0 1 [] = ⟨[errorAlert exhaustedFinding], 3, [1, 2, 4]⟩ :=
  (C2_retry_policy (genErr429 "p")).2.2.2.2.2.2.2
    "Error 429 Resource has been exhausted" "Error 429 Resource has been exhausted"
    "Error 429 Resource has been exhausted" rfl (by decide) rfl (by decide) rfl (by decide)

/-- C5: the analyzer is a total function of the profile text, the drug record
and the model oracle (so it raises nothing to its caller), and its result is
either the parsed alert list of a successful attempt made within the first 3,
or — on every failure path — a list of exactly one alert whose type is the
ERROR tag. -/
theorem C5_never_raises_one_error (g : String → Nat → LLMOutcome)
    (patient_profile_text : String) (drug_data : DrugRecord) :
    (∃ i, i < 3 ∧
      g (user_prompt patient_profile_text drug_data) i =
        .ok (analyze_with_llm g patient_profile_text drug_data)) ∨
    ((analyze_with_llm g patient_profile_text drug_data).length = 1 ∧
      ∀ al ∈ analyze_with_llm g patient_profile_text drug_data, al.type = "🔴 ERROR") := by
  rcases analyzeAux_spec (g (user_prompt patient_profile_text drug_data)) 3 0 1 [] with
    ⟨i, h1, h2, h3⟩ | h
  · exact Or.inl ⟨i, by omega, h3⟩
  · exact Or.inr h

theorem analyze_with_llm_ne_nil (g : String → Nat → LLMOutcome)
    (pt : String) (dd : DrugRecord)
    (hg : ∀ i a, g (user_prompt pt dd) i = .ok a → a ≠ []) :
    analyze_with_llm g pt dd ≠ [] := by
  rcases analyzeAux_spec (g (user_prompt pt dd)) 3 0 1 [] with ⟨i, _, _, h3⟩ | ⟨h, _⟩
  · exact hg i _ h3
  · intro hnil
    have hres : (analyzeAux (g (user_prompt pt dd)) 3 0 1 []).result = [] := hnil
    rw [hres] at h
    simp at h

/-- C1 counterexample: with every fetch failing, the batch endpoint report
for the first catalog drug, Lisinopril, carries the fixed finding
"Could not fetch drug data from openFDA.", which does not contain the drug
name — so the claim fails for the batch endpoint. -/
theorem C1_counterexample :
    (generate_report fdaNone genOkInfo profile0)[0]? =
      some ⟨"Lisinopril", "N/A", "ACE Inhibitor",
        [⟨"🔴 ERROR", "Could not fetch drug data from openFDA."⟩], none⟩
    ∧ strContains "Could not fetch drug data from openFDA." "Lisinopril" = false := by
  exact ⟨rfl, by decide⟩

/-- C1 amended: when the fetch fails, the single-drug endpoint report has
exactly one ERROR alert whose finding contains the drug name and an empty
full-data object, while the batch endpoint report for that entry has exactly
one ERROR alert with the fixed openFDA message, not mentioning the drug name,
and an empty full-data object. -/
theorem C1_amended (fda : String → Option RawLabel) (g : String → Nat → LLMOutcome)
    (p : PatientProfile) (name : String) :
    (fda name = none →
      (check_single_drug fda g p name).alerts = [errorAlert (singleFetchFailFinding name)]
      ∧ strContains (singleFetchFailFinding name) name = true
      ∧ (check_single_drug fda g p name).fullData = none)
    ∧ (∀ (i : Nat) (entry : CatalogEntry), COMMON_BP_DRUGS[i]? = some entry →
        fda entry.name = none →
        (generate_report fda g p)[i]? =
          some ⟨entry.name, "N/A", entry.className, [errorAlert batchFetchFailFinding], none⟩) := by
  constructor
  · intro h
    refine ⟨?_, ?_, ?_⟩
    · simp [check_single_drug, fetch_drug_data, h]
    · simp only [singleFetchFailFinding, String.append_assoc]
      exact strContains_of_append _ _ _ (strContains_self_append _ _)
    · simp [check_single_drug, fetch_drug_data, h]
  · intro i entry hi hf
    rw [generate_report, List.getElem?_map, hi]
    simp [batchItem, fetch_drug_data, hf]

/-- Witness for C1 amended, at an all-failing fetch oracle and the drug name
Advil. -/
theorem C1_amended_witness :
    (check_single_drug fdaNone genOkInfo profile0 "Advil").alerts =
      [errorAlert (singleFetchFailFinding "Advil")]
    ∧ strContains (singleFetchFailFinding "Advil") "Advil" = true
    ∧ (check_single_drug fdaNone genOkInfo profile0 "Advil").fullData = none :=
  (C1_amended fdaNone genOkInfo profile0 "Advil").1 rfl

/-- C3: for every profile the batch loop yields exactly one report per
catalog entry; position i of the output carries the class of catalog entry i;
and the report at position i depends only on the fetch answer for that
entry's name and the model answers at that entry's prompt, so a fetch or
analysis failure of any other drug neither removes, reorders nor changes it. -/
theorem C3_batch_order_isolation (fda : String → Option RawLabel)
    (g : String → Nat → LLMOutcome) (p : PatientProfile) :
    (generate_report fda g p).length = COMMON_BP_DRUGS.length
    ∧ (∀ i : Nat, ((generate_report fda g p)[i]?).map DrugReport.drugClass =
        (COMMON_BP_DRUGS[i]?).map CatalogEntry.className)
    ∧ (∀ (i : Nat) (entry : CatalogEntry), COMMON_BP_DRUGS[i]? = some entry →
        ∀ (fda2 : String → Option RawLabel) (g2 : String → Nat → LLMOutcome),
          fda2 entry.name = fda entry.name →
          (∀ raw, fda entry.name = some raw →
            ∀ att, g2 (user_prompt (get_profile_text p) (buildDrugRecord entry.name raw)) att =
              g (user_prompt (get_profile_text p) (buildDrugRecord entry.name raw)) att) →
          (generate_report fda2 g2 p)[i]? = (generate_report fda g p)[i]?) := by
  refine ⟨by simp [generate_report], ?_, ?_⟩
  · intro i
    rw [generate_report, List.getElem?_map]
    cases hi : COMMON_BP_DRUGS[i]? with
    | none => simp
    | some entry =>
      cases hf : fetch_drug_data fda entry.name <;>
        simp [batchItem, hf]
  · intro i entry hi fda2 g2 hfda hg
    rw [generate_report, generate_report, List.getElem?_map, List.getElem?_map, hi]
    have hitem : batchItem fda2 g2 (get_profile_text p) entry =
        batchItem fda g (get_profile_text p) entry := by
      rw [batchItem, batchItem, fetch_drug_data, fetch_drug_data, hfda]
      cases hr : fda entry.name with
      | none => rfl
      | some raw =>
        have hfun : g2 (user_prompt (get_profile_text p) (buildDrugRecord entry.name raw)) =
            g (user_prompt (get_profile_text p) (buildDrugRecord entry.name raw)) :=
          funext (hg raw hr)
        simp [analyze_with_llm, analyzeTraceOf, hfun]
    show some (batchItem fda2 g2 (get_profile_text p) entry) =
      some (batchItem fda g (get_profile_text p) entry)
    rw [hitem]

/-- Witness for C3: with every fetch failing, replacing the model oracle by a
completely different one leaves the first batch report unchanged. -/
theorem C3_batch_order_isolation_witness :
    (generate_report fdaNone genErr429 profile0)[0]? =
      (generate_report fdaNone genOkInfo profile0)[0]? :=
  (C3_batch_order_isolation fdaNone genOkInfo profile0).2.2 0
    ⟨"ACE Inhibitor", "Lisinopril"⟩ rfl fdaNone genErr429 rfl
    (fun _ h => nomatch h)

/-- C4 counterexample: when the model answers with the empty JSON array on
the first attempt, the single-drug endpoint returns a report whose alert list
is empty — the at-least-one-alert invariant fails for that model response. -/
theorem C4_counterexample :
    (check_single_drug fdaStub genOkEmpty profile0 "Advil").alerts.length = 0 := by
  rfl

/-- C4 amended: unconditionally, a report of either endpoint has its
full-data field equal to the empty object exactly when the fetch for its drug
failed (and it is never null on any path); and provided every successful
model answer is a non-empty list, each report of either endpoint has at least
one alert. -/
theorem C4_amended (fda : String → Option RawLabel) (g : String → Nat → LLMOutcome)
    (p : PatientProfile) (name : String) :
    ((check_single_drug fda g p name).fullData = none ↔ fda name = none)
    ∧ (∀ (i : Nat) (entry : CatalogEntry), COMMON_BP_DRUGS[i]? = some entry →
        ∀ r : DrugReport, (generate_report fda g p)[i]? = some r →
          (r.fullData = none ↔ fda entry.name = none))
    ∧ ((∀ s i a, g s i = .ok a → a ≠ []) →
        (check_single_drug fda g p name).alerts ≠ []
        ∧ ∀ (i : Nat) (entry : CatalogEntry), COMMON_BP_DRUGS[i]? = some entry →
            ∀ r : DrugReport, (generate_report fda g p)[i]? = some r →
              r.alerts ≠ []) := by
  have hbatch : ∀ (i : Nat) (entry : CatalogEntry), COMMON_BP_DRUGS[i]? = some entry →
      ∀ r : DrugReport, (generate_report fda g p)[i]? = some r →
        batchItem fda g (get_profile_text p) entry = r := by
    intro i entry hi r hr
    rw [generate_report, List.getElem?_map, hi] at hr
    simpa using hr
  refine ⟨?_, ?_, ?_⟩
  · cases hf : fda name with
    | none => simp [check_single_drug, fetch_drug_data, hf]
    | some raw => simp [check_single_drug, fetch_drug_data, hf]
  · intro i entry hi r hr
    rw [← hbatch i entry hi r hr]
    cases hf : fda entry.name with
    | none => simp [batchItem, fetch_drug_data, hf]
    | some raw => simp [batchItem, fetch_drug_data, hf]
  · intro hg
    constructor
    · cases hf : fda name with
      | none => simp [check_single_drug, fetch_drug_data, hf]
      | some raw =>
        simpa [check_single_drug, fetch_drug_data, hf] using
          analyze_with_llm_ne_nil g (get_profile_text p) (buildDrugRecord name raw)
            (fun j a h => hg _ j a h)
    · intro i entry hi r hr
      rw [← hbatch i entry hi r hr]
      cases hf : fda entry.name with
      | none => simp [batchItem, fetch_drug_data, hf, errorAlert]
      | some raw =>
        simpa [batchItem, fetch_drug_data, hf] using
          analyze_with_llm_ne_nil g (get_profile_text p) (buildDrugRecord entry.name raw)
            (fun j a h => hg _ j a h)

/-- Witness for C4 amended: the full-data biconditional holds even at the
empty-array-answering model oracle, and with an INFO-answering oracle the
degraded report of an all-failing fetch has a non-empty alert list. -/
theorem C4_amended_witness :
    ((check_single_drug fdaNone genOkEmpty profile0 "Advil").fullData = none ↔
      fdaNone "Advil" = none)
    ∧ (check_single_drug fdaNone genOkInfo profile0 "Advil").alerts ≠ [] :=
  ⟨(C4_amended fdaNone genOkEmpty profile0 "Advil").1,
   ((C4_amended fdaNone genOkInfo profile0 "Advil").2.2
      (fun s i a h => by simp [genOkInfo] at h; simp [← h])).1⟩

/-- C6 counterexample: for the queried name Advil and a fetched record whose
openfda object lists no brand name, the built record's brand name is the
literal "N/A", not the queried drug name. -/
theorem C6_counterexample :
    (buildDrugRecord "Advil" rawStubLabel).brandName = "N/A" ∧ "N/A" ≠ "Advil" := by
  exact ⟨rfl, by decide⟩

/-- C6 amended: when the source provides no generic name, the generic-name
field falls back to the queried drug name; when it provides no brand name,
the brand-name field falls back to the literal "N/A" instead. -/
theorem C6_amended (name : String) (raw : RawLabel) :
    (raw.openfda.bind RawOpenFda.brand_name = none →
      (buildDrugRecord name raw).brandName = "N/A")
    ∧ (raw.openfda.bind RawOpenFda.generic_name = none →
      (buildDrugRecord name raw).genericName = name) := by
  constructor
  · intro h
    simp only [buildDrugRecord]
    rw [show raw.openfda.bind (·.brand_name) = none from h]
    rfl
  · intro h
    simp only [buildDrugRecord]
    rw [show raw.openfda.bind (·.generic_name) = none from h]
    rfl

/-- Witness for C6 amended, at a label with no openfda object at all, so that
both name keys are absent. -/
theorem C6_amended_witness :
    (buildDrugRecord "Advil" ⟨none, none, none, none, none⟩).brandName = "N/A"
    ∧ (buildDrugRecord "Advil" (⟨none, none, none, none, none⟩ : RawLabel)).genericName = "Advil" :=
  ⟨(C6_amended "Advil" ⟨none, none, none, none, none⟩).1 rfl,
   (C6_amended "Advil" ⟨none, none, none, none, none⟩).2 rfl⟩

/-- C7: a truthy label section renders as the lowercase space-join of its
elements, a missing or empty one as the literal placeholder, and in all cases
the rendered section text of the fetched record occurs inside the prompt
composed for the analyzer. -/
theorem C7_section_rendering (l : List String) (ptext name : String) (raw : RawLabel) :
    (l ≠ [] → get_section_text (some l) = (String.intercalate " " l).toLower)
    ∧ get_section_text (some []) = "No information listed."
    ∧ get_section_text none = "No information listed."
    ∧ strContains (user_prompt ptext (buildDrugRecord name raw))
        (get_section_text raw.contraindications) = true
    ∧ strContains (user_prompt ptext (buildDrugRecord name raw))
        (get_section_text raw.warnings_and_precautions) = true
    ∧ strContains (user_prompt ptext (buildDrugRecord name raw))
        (get_section_text raw.drug_interactions) = true
    ∧ strContains (user_prompt ptext (buildDrugRecord name raw))
        (get_section_text raw.adverse_reactions) = true := by
  refine ⟨?_, rfl, rfl, ?_, ?_, ?_, ?_⟩
  · intro h
    cases l with
    | nil => exact absurd rfl h
    | cons s ss => rfl
  all_goals {
    simp only [user_prompt, buildDrugRecord, String.append_assoc]
    repeat
      first
      | exact strContains_self_append _ _
      | apply strContains_of_append
  }

/-- Witness for C7, at a one-element section list. -/
theorem C7_section_rendering_witness :
    get_section_text (some ["TEXT"]) = (String.intercalate " " ["TEXT"]).toLower :=
  (C7_section_rendering ["TEXT"] "" "Advil" rawStubLabel).1 (by decide)

/-- C8: the profile formatter is total on profiles (it is a Lean function)
and always returns the fixed four-line block, and a profile whose allergies
or meds key is absent or maps to the empty list renders that field as "N/A". -/
theorem C8_formatter_total (p : PatientProfile) :
    (get_profile_text p =
      "\n    - Vitals: " ++ textOrNA p.vitals ++
      "\n    - Notes/History: " ++ textOrNA p.notes ++
      "\n    - Allergies: " ++ joinOrNA p.allergies ++
      "\n    - Other Medications: " ++ joinOrNA p.meds ++
      "\n    ")
    ∧ ((p.allergies = none ∨ p.allergies = some []) → joinOrNA p.allergies = "N/A")
    ∧ ((p.meds = none ∨ p.meds = some []) → joinOrNA p.meds = "N/A") := by
  refine ⟨rfl, ?_, ?_⟩ <;> rintro (h | h) <;> rw [h] <;> rfl

/-- Witness for C8, at the all-absent profile. -/
theorem C8_formatter_total_witness :
    joinOrNA profile0.allergies = "N/A" ∧ joinOrNA profile0.meds = "N/A" :=
  ⟨(C8_formatter_total profile0).2.1 (Or.inl rfl),
   (C8_formatter_total profile0).2.2 (Or.inl rfl)⟩

/-- C9: against fixed deterministic fetch and model oracles, two invocations
of the single-drug pipeline on equal profiles and equal drug names return
identical reports. -/
theorem C9_deterministic (fda : String → Option RawLabel) (g : String → Nat → LLMOutcome)
    (p p2 : PatientProfile) (n n2 : String) (hp : p = p2) (hn : n = n2) :
    check_single_drug fda g p n = check_single_drug fda g p2 n2 := by
  rw [hp, hn]

/-- Witness for C9, at the stub oracles. -/
theorem C9_deterministic_witness :
    check_single_drug fdaStub genOkInfo profile0 "Advil" =
      check_single_drug fdaStub genOkInfo profile0 "Advil" :=
  C9_deterministic fdaStub genOkInfo profile0 profile0 "Advil" "Advil" rfl rfl

/-- C10: present-but-empty text fields render as the empty string while the
"N/A" default appears when the key is absent (a present value always renders
as itself); the allergies and meds fields render "N/A" both when the key is
absent and when the list is empty; and the formatter is exactly the four-line
template over these field renderings. -/
theorem C10_empty_vs_absent :
    textOrNA (some "") = ""
    ∧ textOrNA none = "N/A"
    ∧ (∀ s, textOrNA (some s) = s)
    ∧ joinOrNA none = "N/A"
    ∧ joinOrNA (some []) = "N/A"
    ∧ (∀ p : PatientProfile, get_profile_text p =
        "\n    - Vitals: " ++ textOrNA p.vitals ++
        "\n    - Notes/History: " ++ textOrNA p.notes ++
        "\n    - Allergies: " ++ joinOrNA p.allergies ++
        "\n    - Other Medications: " ++ joinOrNA p.meds ++
        "\n    ") := by
  exact ⟨rfl, rfl, fun s => rfl, rfl, rfl, fun p => rfl⟩

end DrugApp
